import Mathlib

/-!
Verification of the Chat Completion Client in
`src/agentverse/llms/openai.py` (class `OpenAIChat`): message assembly,
response interpretation for the blocking (`generate_response`) and
non-blocking (`agenerate_response`) call modes, function-name
normalization, function-call argument recovery, and the retry policy.

External collaborators (the remote chat-completion service, the Python
literal parser `ast.literal_eval`, and the JSON-repair routine) are
modelled as explicit function parameters: the client's logic is proved
for every behaviour of those collaborators.
-/

namespace AgentVerse

/-- A parsed Python value, the result type of the literal parser
`ast.literal_eval` applied to a function-call argument string. The
parser itself is an external collaborator and is a quantified parameter
everywhere below, so this flat fragment of Python values (scalars and
string-keyed flat dictionaries) suffices: only the client's control
flow, never the structure of a parsed value, is at stake. -/
inductive PyVal where
  | pstr : String → PyVal
  | pint : Int → PyVal
  | pbool : Bool → PyVal
  | pnone : PyVal
  | pdict : List (String × String) → PyVal
deriving DecidableEq, Repr

/-- A chat message: a role/content pair, as assembled by
`OpenAIChat.construct_messages`. -/
structure Msg where
  role : String
  content : String
deriving DecidableEq, Repr

/-- A function schema supplied by the caller; the client reads only its
`name` field (`function["name"]` at openai.py line 210). -/
structure FunctionSchema where
  name : String
deriving DecidableEq, Repr

/-- The `function_call` field of a remote reply message: a function name
and an argument string. -/
structure FunctionCall where
  name : String
  arguments : String
deriving DecidableEq, Repr

/-- The `message` part of a remote reply (`response["choices"][0]["message"]`).
`none` models an absent key. -/
structure ChatMsg where
  content : Option String := none
  function_call : Option FunctionCall := none
deriving DecidableEq, Repr

/-- The `usage` counters of a remote reply. -/
structure Usage where
  prompt_tokens : Nat
  completion_tokens : Nat
  total_tokens : Nat
deriving DecidableEq, Repr

/-- A remote reply: the first choice's message together with usage. -/
structure Response where
  message : ChatMsg
  usage : Usage
deriving DecidableEq, Repr

/-- The errors a dispatch attempt can raise: remote-service errors,
an interruption signal (`KeyboardInterrupt`), decode errors, the
`ValueError` raised on invalid function names or unparseable arguments,
and the `KeyError` raised when a reply lacks a `content` entry. -/
inductive PyError where
  | openAIError : String → PyError
  | keyboardInterrupt : PyError
  | jsonDecodeError : String → PyError
  | valueError : String → PyError
  | keyError : String → PyError
deriving DecidableEq, Repr

/-- Whether an error is a Python `Exception` (retried by the retry
decorator); `KeyboardInterrupt` derives from `BaseException`, not
`Exception`, and is not retried. -/
def isExceptionErr : PyError → Bool
  | .keyboardInterrupt => false
  | _ => true

/-- Modelled from the spec: the result record `LLMResult` (defined in
`agentverse/llms/base.py`, which is not among the provided sources) —
either free-text content or a function-call (name plus parsed
arguments), with pass-through token-usage counters; fields not set by a
construction site keep their defaults. -/
structure LLMResult where
  content : Option String := none
  function_name : Option String := none
  function_arguments : Option PyVal := none
  send_tokens : Nat := 0
  recv_tokens : Nat := 0
  total_tokens : Nat := 0
deriving DecidableEq, Repr

/-- Whether the character list `pat` is an initial segment of `s`;
embeds Python `str.startswith`. -/
def startsWithL : List Char → List Char → Bool
  | [], _ => true
  | _ :: _, [] => false
  | p :: ps, c :: cs => p = c && startsWithL ps cs

/-- Worker for `replaceAllL`, structurally recursive on a fuel bound so
that it reduces in the kernel; one unit of fuel is spent per character
position examined, and a non-empty match consumes at least one
character, so fuel equal to the length of `s` is always enough. -/
def replaceAllGo (pat rep : List Char) : Nat → List Char → List Char
  | _, [] => []
  | 0, s => s
  | fuel + 1, c :: rest =>
    if !pat.isEmpty && startsWithL pat (c :: rest) then
      rep ++ replaceAllGo pat rep fuel ((c :: rest).drop pat.length)
    else
      c :: replaceAllGo pat rep fuel rest

/-- Replace every non-overlapping occurrence of the non-empty pattern
`pat` in `s` by `rep`, scanning left to right; embeds Python
`str.replace` for a non-empty pattern. -/
def replaceAllL (pat rep s : List Char) : List Char :=
  replaceAllGo pat rep s.length s

/-- Python `name.startswith(pat)` on strings. -/
def pyStartsWith (s pat : String) : Bool :=
  startsWithL pat.toList s.toList

/-- Python `s.replace(pat, rep)` on strings, for non-empty `pat`. -/
def pyReplace (s pat rep : String) : String :=
  ⟨replaceAllL pat.toList rep.toList s.toList⟩

/-- The function-name normalization of `agenerate_response`
(openai.py lines 205-208): if the returned name starts with
`function.` (resp. `functions.`), apply `str.replace` of that pattern by
the empty string. -/
def normalizeName (name : String) : String :=
  if pyStartsWith name "function." then pyReplace name "function." ""
  else if pyStartsWith name "functions." then pyReplace name "functions." ""
  else name

/-- `OpenAIChat.construct_messages` (openai.py lines 272-282): start from
an empty list, append a system message iff `prepend_prompt` is non-empty,
extend with `history` iff it is non-empty, append a user message iff
`append_prompt` is non-empty. -/
def construct_messages (prepend_prompt : String) (history : List Msg)
    (append_prompt : String) : List Msg :=
  let messages : List Msg := []
  let messages :=
    if prepend_prompt ≠ "" then
      messages ++ [{ role := "system", content := prepend_prompt }]
    else messages
  let messages := if history.length > 0 then messages ++ history else messages
  let messages :=
    if append_prompt ≠ "" then
      messages ++ [{ role := "user", content := append_prompt }]
    else messages
  messages

/-- One dispatch-and-interpret attempt of the blocking call
`OpenAIChat.generate_response` (openai.py lines 123-169), given the
remote reply `r`. `lit` is the external literal parser
`ast.literal_eval`, returning `none` when the parse raises. When
`functions` is non-empty and the reply carries a function call, the
result takes the reply's `content` via `.get("content", "")`, the
function name verbatim (no normalization, no validation), and the
parsed arguments; a parse failure raises `ValueError` with no repair
attempt. Otherwise the reply's text content becomes the result. -/
def generate_response_attempt (lit : String → Option PyVal)
    (functions : List FunctionSchema) (r : Response) :
    Except PyError LLMResult :=
  if functions = [] then
    match r.message.content with
    | some c =>
      .ok { content := some c,
            send_tokens := r.usage.prompt_tokens,
            recv_tokens := r.usage.completion_tokens,
            total_tokens := r.usage.total_tokens }
    | none => .error (.keyError "content")
  else
    match r.message.function_call with
    | some fc =>
      match lit fc.arguments with
      | some args =>
        .ok { content := some (r.message.content.getD ""),
              function_name := some fc.name,
              function_arguments := some args,
              send_tokens := r.usage.prompt_tokens,
              recv_tokens := r.usage.completion_tokens,
              total_tokens := r.usage.total_tokens }
      | none => .error (.valueError "malformed node or string")
    | none =>
      match r.message.content with
      | some c =>
        .ok { content := some c,
              send_tokens := r.usage.prompt_tokens,
              recv_tokens := r.usage.completion_tokens,
              total_tokens := r.usage.total_tokens }
      | none => .error (.keyError "content")

/-- One dispatch-and-interpret attempt of the non-blocking call
`OpenAIChat.agenerate_response` (openai.py lines 189-270), given the
remote reply `r`; returns the attempt's outcome together with the
warning messages logged during it. `lit` is the external literal parser
`ast.literal_eval`; `rep` is the external JSON-repair routine
(`JsonRepair(...).repair()`, returning `none` when it raises). When
`functions` is non-empty and the reply carries a function call, the
name is normalized and validated against `functions` (on failure a
warning is logged and `ValueError` is raised); the arguments are parsed,
with one repair-and-reparse pass on failure (on double failure a warning
is logged and `ValueError` is raised); the result carries no text
content. Otherwise the reply's text content becomes the result. -/
def agenerate_response_attempt (lit : String → Option PyVal)
    (rep : String → Option String) (functions : List FunctionSchema)
    (r : Response) : Except PyError LLMResult × List String :=
  if functions = [] then
    match r.message.content with
    | some c =>
      (.ok { content := some c,
             send_tokens := r.usage.prompt_tokens,
             recv_tokens := r.usage.completion_tokens,
             total_tokens := r.usage.total_tokens }, [])
    | none => (.error (.keyError "content"), [])
  else
    match r.message.function_call with
    | some fc =>
      let function_name := normalizeName fc.name
      if functions.any (fun f => f.name = function_name) then
        match lit fc.arguments with
        | some args =>
          (.ok { function_name := some function_name,
                 function_arguments := some args,
                 send_tokens := r.usage.prompt_tokens,
                 recv_tokens := r.usage.completion_tokens,
                 total_tokens := r.usage.total_tokens }, [])
        | none =>
          match rep fc.arguments with
          | some repaired =>
            match lit repaired with
            | some args =>
              (.ok { function_name := some function_name,
                     function_arguments := some args,
                     send_tokens := r.usage.prompt_tokens,
                     recv_tokens := r.usage.completion_tokens,
                     total_tokens := r.usage.total_tokens }, [])
            | none =>
              (.error (.valueError
                 "The returned argument in function call is not valid json."),
               ["The returned argument in function call is not valid json. Retrying..."])
          | none =>
            (.error (.valueError
               "The returned argument in function call is not valid json."),
             ["The returned argument in function call is not valid json. Retrying..."])
      else
        (.error (.valueError ("The returned function name " ++ function_name
           ++ " is not in the list of valid functions.")),
         ["The returned function name " ++ function_name
           ++ " is not in the list of valid functions. Retrying..."])
    | none =>
      match r.message.content with
      | some c =>
        (.ok { content := some c,
               send_tokens := r.usage.prompt_tokens,
               recv_tokens := r.usage.completion_tokens,
               total_tokens := r.usage.total_tokens }, [])
      | none => (.error (.keyError "content"), [])

/-- Modelled from the spec: the retry decorator applied to both call
modes (openai.py lines 105-109 and 171-175). The `tenacity` library is
an external dependency, not part of this repository's sources; per its
documented semantics as configured — `stop_after_attempt(20)`,
`reraise=True`, and the default retry predicate which retries on
`Exception` — attempt numbers count from 1; a success returns; a
non-`Exception` error (the interruption signal) propagates at once; an
`Exception` with no remaining attempts allowed is re-raised; otherwise
the next attempt runs. Returns the final outcome paired with the number
of the attempt on which the call finished. -/
def retryGo (f : Nat → Except PyError α) : Nat → Nat → Except PyError α × Nat
  | 0, attempt =>
    match f attempt with
    | .ok a => (.ok a, attempt)
    | .error e => (.error e, attempt)
  | remaining + 1, attempt =>
    match f attempt with
    | .ok a => (.ok a, attempt)
    | .error e =>
      if isExceptionErr e = false then (.error e, attempt)
      else retryGo f remaining (attempt + 1)

/-- The attempt bound configured by `stop_after_attempt(20)` on both
call modes. -/
def stop_attempts : Nat := 20

/-- The retry wrapper shared by `generate_response` and
`agenerate_response`: up to `stop_attempts` attempts, numbered from 1,
so `stop_attempts - 1` further attempts remain after the first. -/
def retried (f : Nat → Except PyError α) : Except PyError α × Nat :=
  retryGo f (stop_attempts - 1) 1

/-- The full blocking call: `remote i` is the outcome of the `i`-th
dispatch to the remote service (`openai.ChatCompletion.create`, which
may itself raise); each attempt interprets its reply and the whole is
retried per the decorator. -/
def generate_response (lit : String → Option PyVal)
    (functions : List FunctionSchema) (remote : Nat → Except PyError Response) :
    Except PyError LLMResult × Nat :=
  retried (fun i => (remote i).bind (generate_response_attempt lit functions))

/-- The full non-blocking call, analogous to `generate_response` but
interpreting each reply with `agenerate_response_attempt` (warnings
dropped here; they are examined per attempt). -/
def agenerate_response (lit : String → Option PyVal)
    (rep : String → Option String) (functions : List FunctionSchema)
    (remote : Nat → Except PyError Response) :
    Except PyError LLMResult × Nat :=
  retried (fun i =>
    (remote i).bind (fun r => (agenerate_response_attempt lit rep functions r).fst))

deriving instance DecidableEq for Except

/-- A concrete literal parser for concrete instances: it parses exactly
the string `"valid_args"` (standing for a well-formed argument literal)
and fails on every other string. -/
def litEx : String → Option PyVal := fun s =>
  if s = "valid_args" then some (.pdict [("q", "x")]) else none

/-- A concrete JSON-repair routine for concrete instances: it repairs
exactly the string `"repairable"` into `"valid_args"` and fails on every
other string. -/
def repEx : String → Option String := fun s =>
  if s = "repairable" then some "valid_args" else none

/-- A concrete schema set holding the single function `search`. -/
def fnsEx : List FunctionSchema := [{ name := "search" }]

/-- A concrete remote reply carrying both text content and a
function call whose name needs prefix normalization. -/
def rspBoth : Response :=
  { message := { content := some "Let me think",
                 function_call := some { name := "functions.search",
                                         arguments := "valid_args" } },
    usage := { prompt_tokens := 5, completion_tokens := 3, total_tokens := 8 } }

/-- A concrete remote reply whose function-call arguments fail the
literal parse but are repairable. -/
def rspRepair : Response :=
  { message := { function_call := some { name := "search",
                                         arguments := "repairable" } },
    usage := { prompt_tokens := 5, completion_tokens := 3, total_tokens := 8 } }

/-- A concrete remote reply whose function-call name is not among the
supplied schemas. -/
def rspBogus : Response :=
  { message := { function_call := some { name := "bogus",
                                         arguments := "valid_args" } },
    usage := { prompt_tokens := 5, completion_tokens := 3, total_tokens := 8 } }

/-- Whether a Result meaningfully populates the free-text shape: its
content is present and non-empty. -/
def hasTextShape (res : LLMResult) : Bool :=
  !(res.content.getD "").isEmpty

/-- Whether a Result populates the function-call shape: a function name
or parsed arguments are present. -/
def hasFunctionShape (res : LLMResult) : Bool :=
  res.function_name.isSome || res.function_arguments.isSome

/-- The Result the blocking call builds from `rspBoth`: reply text
content and function-call fields together, the name unnormalized. -/
def resBothSync : LLMResult :=
  { content := some "Let me think",
    function_name := some "functions.search",
    function_arguments := some (.pdict [("q", "x")]),
    send_tokens := 5, recv_tokens := 3, total_tokens := 8 }

/-- The Result the non-blocking call builds from `rspBoth`: function
fields only, the name normalized. -/
def resBothAsync : LLMResult :=
  { function_name := some "search",
    function_arguments := some (.pdict [("q", "x")]),
    send_tokens := 5, recv_tokens := 3, total_tokens := 8 }

/-- The Result the blocking call builds from `rspBogus`, whose function
name matches no supplied schema. -/
def resBogusSync : LLMResult :=
  { content := some "",
    function_name := some "bogus",
    function_arguments := some (.pdict [("q", "x")]),
    send_tokens := 5, recv_tokens := 3, total_tokens := 8 }

/-- If every attempt from `k` through `k + r` fails with a retryable
error, the retry loop stops at attempt `k + r` and re-raises that
attempt's error. -/
lemma retryGo_all_fail {α : Type} (f : Nat → Except PyError α)
    (e : Nat → PyError) (hretry : ∀ i, isExceptionErr (e i) = true) :
    ∀ r k, (∀ i, k ≤ i → i ≤ k + r → f i = .error (e i)) →
      retryGo f r k = (.error (e (k + r)), k + r) := by
  intro r
  induction r with
  | zero =>
    intro k h
    have hk := h k le_rfl (by omega)
    simp [retryGo, hk]
  | succ n ih =>
    intro k h
    have hk := h k le_rfl (by omega)
    have hr := hretry k
    have hrec := ih (k + 1) (fun i h1 h2 => h i (by omega) (by omega))
    simp only [retryGo, hk, hr]
    simpa [Nat.add_assoc, Nat.add_comm 1 n] using hrec

/-- The retry loop with `r` remaining attempts after attempt `k` only
ever evaluates attempts `k` through `k + r`: replacing the attempt
function by one that agrees there leaves the outcome unchanged. -/
lemma retryGo_congr {α : Type} (f g : Nat → Except PyError α) :
    ∀ r k, (∀ i, k ≤ i → i ≤ k + r → f i = g i) →
      retryGo f r k = retryGo g r k := by
  intro r
  induction r with
  | zero =>
    intro k h
    simp [retryGo, h k le_rfl (by omega)]
  | succ n ih =>
    intro k h
    have hk : f k = g k := h k le_rfl (by omega)
    have hrec := ih (k + 1) (fun i h1 h2 => h i (by omega) (by omega))
    simp only [retryGo, hk]
    cases g k with
    | ok a => rfl
    | error e =>
      by_cases he : isExceptionErr e = false <;> simp [he, hrec]

/-- If attempts `k` up to (excluding) `j` fail with retryable errors and
attempt `j` raises the interruption signal, the retry loop stops at
attempt `j` with the interruption, regardless of remaining fuel beyond
`j`. -/
lemma retryGo_interrupt {α : Type} (f : Nat → Except PyError α)
    (e : Nat → PyError) :
    ∀ r k j, k ≤ j → j ≤ k + r →
      (∀ i, k ≤ i → i < j → f i = .error (e i) ∧ isExceptionErr (e i) = true) →
      f j = .error .keyboardInterrupt →
      retryGo f r k = (.error .keyboardInterrupt, j) := by
  intro r
  induction r with
  | zero =>
    intro k j hkj hjk h hj
    have : j = k := by omega
    subst this
    simp [retryGo, hj]
  | succ n ih =>
    intro k j hkj hjk h hj
    by_cases hjk0 : j = k
    · subst hjk0
      simp [retryGo, hj, isExceptionErr]
    · have hk := h k le_rfl (by omega)
      have hrec := ih (k + 1) j (by omega) (by omega)
        (fun i h1 h2 => h i (by omega) h2) hj
      simp only [retryGo, hk.1, hk.2]
      simpa using hrec



/-- Claim C1, counterexample: the blocking and non-blocking calls do
not share identical response-interpretation logic. On the same input
and the same remote reply (a function call named `functions.search`
with parseable arguments and accompanying text content), the blocking
attempt keeps the raw name and the reply text while the non-blocking
attempt normalizes the name and drops the text, so the two call modes
return different Results; the full retried calls differ likewise. -/
theorem generate_attempt_differs_from_agenerate_attempt :
    generate_response_attempt litEx fnsEx rspBoth = .ok resBothSync ∧
    (agenerate_response_attempt litEx repEx fnsEx rspBoth).fst = .ok resBothAsync ∧
    resBothSync ≠ resBothAsync ∧
    generate_response litEx fnsEx (fun _ => .ok rspBoth) ≠
      agenerate_response litEx repEx fnsEx (fun _ => .ok rspBoth) := by
  decide

/-- Claim C1, amended: the two call modes produce the same Result
whenever the request carries no function schemas or the reply signals
no function call; they differ only on function-call replies (the
non-blocking mode normalizes and validates the name, repairs arguments,
and omits reply text content). -/
theorem call_modes_agree_without_function_call :
    ∀ (lit : String → Option PyVal) (rep : String → Option String)
      (functions : List FunctionSchema) (r : Response),
      functions = [] ∨ r.message.function_call = none →
      generate_response_attempt lit functions r =
        (agenerate_response_attempt lit rep functions r).fst := by
  intro lit rep functions r h
  rcases h with h | h
  · subst h
    cases hc : r.message.content <;>
      simp [generate_response_attempt, agenerate_response_attempt, hc]
  · by_cases hf : functions = []
    · subst hf
      cases hc : r.message.content <;>
        simp [generate_response_attempt, agenerate_response_attempt, hc]
    · cases hc : r.message.content <;>
        simp [generate_response_attempt, agenerate_response_attempt, hf, h, hc]

/-- Claim C1, witness for the amended theorem at empty `functions`. -/
theorem call_modes_agree_without_function_call_witness :
    (([] : List FunctionSchema) = [] ∨ rspBoth.message.function_call = none) ∧
    generate_response_attempt litEx [] rspBoth =
      (agenerate_response_attempt litEx repEx [] rspBoth).fst :=
  ⟨Or.inl rfl,
   call_modes_agree_without_function_call litEx repEx [] rspBoth (Or.inl rfl)⟩

/-- Claim C2, counterexample: in the blocking call mode, an argument
string that fails the literal parse gets no repair pass; the attempt
raises at once, even though the concrete repair routine would have
fixed the string into one the parser accepts. -/
theorem generate_attempt_skips_repair :
    litEx "repairable" = none ∧
    repEx "repairable" = some "valid_args" ∧
    litEx "valid_args" = some (.pdict [("q", "x")]) ∧
    generate_response_attempt litEx fnsEx rspRepair =
      .error (.valueError "malformed node or string") := by
  decide

/-- Claim C2, amended: the argument-recovery policy holds of the
non-blocking call mode (the blocking mode parses with no repair pass):
a valid literal yields exactly the parsed structure; a failed parse is
followed by exactly one repair pass and a re-parse whose value becomes
the arguments; if the re-parse also fails, the attempt raises a
retryable error instead of returning a Result. -/
theorem argument_recovery :
    ∀ (lit : String → Option PyVal) (rep : String → Option String)
      (functions : List FunctionSchema) (r : Response) (fc : FunctionCall),
      r.message.function_call = some fc →
      functions ≠ [] →
      functions.any (fun f => f.name = normalizeName fc.name) = true →
      ((∀ v, lit fc.arguments = some v →
          (agenerate_response_attempt lit rep functions r).fst =
            .ok { function_name := some (normalizeName fc.name),
                  function_arguments := some v,
                  send_tokens := r.usage.prompt_tokens,
                  recv_tokens := r.usage.completion_tokens,
                  total_tokens := r.usage.total_tokens })
       ∧ (∀ s v, lit fc.arguments = none → rep fc.arguments = some s →
            lit s = some v →
            (agenerate_response_attempt lit rep functions r).fst =
              .ok { function_name := some (normalizeName fc.name),
                    function_arguments := some v,
                    send_tokens := r.usage.prompt_tokens,
                    recv_tokens := r.usage.completion_tokens,
                    total_tokens := r.usage.total_tokens })
       ∧ (lit fc.arguments = none → (rep fc.arguments).bind lit = none →
            (agenerate_response_attempt lit rep functions r).fst =
              .error (.valueError
                "The returned argument in function call is not valid json.")
            ∧ isExceptionErr (.valueError
                "The returned argument in function call is not valid json.") = true)) := by
  intro lit rep functions r fc hfc hne hvalid
  refine ⟨?_, ?_, ?_⟩
  · intro v hv
    simp [agenerate_response_attempt, hfc, hne, hvalid, hv]
  · intro s v hlit hrep hs
    simp [agenerate_response_attempt, hfc, hne, hvalid, hlit, hrep, hs]
  · intro hlit hbind
    cases hrep : rep fc.arguments with
    | none =>
      exact ⟨by simp [agenerate_response_attempt, hfc, hne, hvalid, hlit, hrep], rfl⟩
    | some s =>
      have hs : lit s = none := by simpa [hrep] using hbind
      exact ⟨by simp [agenerate_response_attempt, hfc, hne, hvalid, hlit, hrep, hs],
             rfl⟩

/-- Claim C2, witness: a repairable argument string is repaired and
re-parsed, and the Result carries the structure parsed from the
repaired string. -/
theorem argument_recovery_witness :
    litEx "repairable" = none ∧
    repEx "repairable" = some "valid_args" ∧
    (agenerate_response_attempt litEx repEx fnsEx rspRepair).fst = .ok resBothAsync :=
  ⟨rfl, rfl,
   (argument_recovery litEx repEx fnsEx rspRepair
      { name := "search", arguments := "repairable" } rfl
      (by decide) (by decide)).2.1 "valid_args" (.pdict [("q", "x")]) rfl rfl rfl⟩

/-- Claim C3: when every dispatch in the first 20 attempts fails with a
retryable error, both call modes stop at attempt 20 and re-raise the
20th error (no default Result); moreover, the retry wrapper only ever
evaluates attempts 1 through 20, so no 21st attempt is made. -/
theorem retry_bound_20 :
    (∀ (lit : String → Option PyVal) (rep : String → Option String)
       (functions : List FunctionSchema)
       (remote : Nat → Except PyError Response) (e : Nat → PyError),
       (∀ i, 1 ≤ i → i ≤ 20 → remote i = .error (e i)) →
       (∀ i, isExceptionErr (e i) = true) →
       generate_response lit functions remote = (.error (e 20), 20) ∧
       agenerate_response lit rep functions remote = (.error (e 20), 20))
    ∧ (∀ f g : Nat → Except PyError LLMResult,
       (∀ i, 1 ≤ i → i ≤ 20 → f i = g i) → retried f = retried g) := by
  constructor
  · intro lit rep functions remote e hrem hret
    have hbind : ∀ (g : Response → Except PyError LLMResult) i, 1 ≤ i → i ≤ 20 →
        (remote i).bind g = .error (e i) := by
      intro g i h1 h2
      rw [hrem i h1 h2]
      rfl
    constructor
    · have := retryGo_all_fail
        (fun i => (remote i).bind (generate_response_attempt lit functions)) e hret
        19 1 (fun i h1 h2 => hbind _ i h1 (by omega))
      simpa [generate_response, retried, stop_attempts] using this
    · have := retryGo_all_fail
        (fun i => (remote i).bind
          (fun r => (agenerate_response_attempt lit rep functions r).fst)) e hret
        19 1 (fun i h1 h2 => hbind _ i h1 (by omega))
      simpa [agenerate_response, retried, stop_attempts] using this
  · intro f g h
    have := retryGo_congr f g 19 1 (fun i h1 h2 => h i h1 (by omega))
    simpa [retried, stop_attempts] using this

/-- Claim C3, witness: a remote that always raises a server error makes
the blocking call re-raise that error on attempt 20, and the retry
wrapper respects agreement on the first 20 attempts. -/
theorem retry_bound_20_witness :
    generate_response (fun _ => none) []
        (fun _ => .error (.openAIError "server error")) =
      (.error (.openAIError "server error"), 20)
    ∧ retried (fun _ => (.error (.openAIError "server error") :
        Except PyError LLMResult)) =
      retried (fun _ => .error (.openAIError "server error")) :=
  ⟨(retry_bound_20.1 (fun _ => none) (fun _ => none) []
      (fun _ => .error (.openAIError "server error"))
      (fun _ => .openAIError "server error")
      (fun _ _ _ => rfl) (fun _ => rfl)).1,
   retry_bound_20.2 (fun _ => .error (.openAIError "server error"))
      (fun _ => .error (.openAIError "server error")) (fun _ _ _ => rfl)⟩

/-- Claim C4, counterexample: the blocking call mode can populate both
result shapes meaningfully at once — on a reply carrying both text
content and a function call, its Result holds non-empty text content
together with a function name and parsed arguments. -/
theorem generate_result_both_shapes :
    generate_response_attempt litEx fnsEx rspBoth = .ok resBothSync ∧
    hasTextShape resBothSync = true ∧
    hasFunctionShape resBothSync = true := by
  decide

/-- Claim C4, amended: in the non-blocking call mode every returned
Result populates exactly one shape — a function-call Result carries a
name and arguments but no text content, and a text Result carries
content but no function fields; only the blocking mode can populate
both meaningfully. -/
theorem agenerate_result_single_shape :
    ∀ (lit : String → Option PyVal) (rep : String → Option String)
      (functions : List FunctionSchema) (r : Response) (res : LLMResult),
      (agenerate_response_attempt lit rep functions r).fst = .ok res →
      (res.function_name.isSome = true ∧ res.function_arguments.isSome = true ∧
        res.content = none)
      ∨ (res.function_name = none ∧ res.function_arguments = none ∧
        res.content.isSome = true) := by
  intro lit rep functions r res h
  simp only [agenerate_response_attempt] at h
  repeat' split at h
  all_goals simp at h
  all_goals try (cases h)
  all_goals simp_all

/-- Claim C4, witness for the amended theorem at a concrete
function-call reply. -/
theorem agenerate_result_single_shape_witness :
    (agenerate_response_attempt litEx repEx fnsEx rspBoth).fst = .ok resBothAsync ∧
    ((resBothAsync.function_name.isSome = true ∧
        resBothAsync.function_arguments.isSome = true ∧
        resBothAsync.content = none)
     ∨ (resBothAsync.function_name = none ∧
        resBothAsync.function_arguments = none ∧
        resBothAsync.content.isSome = true)) :=
  ⟨by decide,
   agenerate_result_single_shape litEx repEx fnsEx rspBoth resBothAsync (by decide)⟩

/-- Claim C5, counterexample: normalization does not merely strip a
leading prefix — on `function.a.function.b` it removes every occurrence
of `function.`, yielding `a.b` rather than the `a.function.b` that a
leading-only strip would produce. -/
theorem normalize_strips_all_occurrences :
    normalizeName "function.a.function.b" = "a.b" ∧
    normalizeName "function.a.function.b" ≠ "a.function.b" := by
  decide

/-- Claim C5, amended: `functions.lookup`, `function.lookup` and
`lookup` all normalize to `lookup`, and a name starting with neither
prefix is left unchanged; but a name that does start with `function.`
or `functions.` has every occurrence of that pattern removed, not only
the leading one. -/
theorem function_name_normalization :
    (normalizeName "functions.lookup" = "lookup" ∧
     normalizeName "function.lookup" = "lookup" ∧
     normalizeName "lookup" = "lookup") ∧
    (∀ n, pyStartsWith n "function." = false →
      pyStartsWith n "functions." = false → normalizeName n = n) := by
  refine ⟨by decide, ?_⟩
  intro n h1 h2
  simp [normalizeName, h1, h2]

/-- Claim C5, witness for the amended theorem: a name with neither
prefix is unchanged. -/
theorem function_name_normalization_witness :
    pyStartsWith "lookup" "function." = false ∧
    pyStartsWith "lookup" "functions." = false ∧
    normalizeName "lookup" = "lookup" :=
  ⟨by decide, by decide,
   function_name_normalization.2 "lookup" (by decide) (by decide)⟩

/-- Claim C6, counterexample: the blocking call mode performs no
function-name validation — on a reply naming `bogus`, absent from the
supplied schema set, it still returns a Result carrying that name. -/
theorem generate_attempt_accepts_invalid_name :
    fnsEx.any (fun f => f.name = normalizeName "bogus") = false ∧
    generate_response_attempt litEx fnsEx rspBogus = .ok resBogusSync := by
  decide

/-- Claim C6, amended: in the non-blocking call mode, a function-call
reply whose normalized name matches no supplied schema yields no Result
for that attempt — a warning is logged and a `ValueError` (a retryable
`Exception`) is raised; the blocking mode skips this validation. -/
theorem agenerate_invalid_name_raises :
    ∀ (lit : String → Option PyVal) (rep : String → Option String)
      (functions : List FunctionSchema) (r : Response) (fc : FunctionCall),
      r.message.function_call = some fc →
      functions ≠ [] →
      functions.any (fun f => f.name = normalizeName fc.name) = false →
      agenerate_response_attempt lit rep functions r =
        (.error (.valueError ("The returned function name "
            ++ normalizeName fc.name
            ++ " is not in the list of valid functions.")),
         ["The returned function name " ++ normalizeName fc.name
            ++ " is not in the list of valid functions. Retrying..."])
      ∧ isExceptionErr (.valueError ("The returned function name "
            ++ normalizeName fc.name
            ++ " is not in the list of valid functions.")) = true := by
  intro lit rep functions r fc hfc hne hvalid
  exact ⟨by simp [agenerate_response_attempt, hfc, hne, hvalid], rfl⟩

/-- Claim C6, witness: the concrete invalid name `bogus` makes the
non-blocking attempt log a warning and raise. -/
theorem agenerate_invalid_name_raises_witness :
    agenerate_response_attempt litEx repEx fnsEx rspBogus =
      (.error (.valueError
         "The returned function name bogus is not in the list of valid functions."),
       ["The returned function name bogus is not in the list of valid functions. Retrying..."]) :=
  (agenerate_invalid_name_raises litEx repEx fnsEx rspBogus
    { name := "bogus", arguments := "valid_args" } rfl
    (by decide) (by decide)).1

/-- Claim C7: with empty prepend and append prompts, message assembly
returns the history unchanged. -/
theorem construct_messages_identity :
    ∀ history : List Msg, construct_messages "" history "" = history := by
  intro history
  cases history <;> simp [construct_messages]

/-- Claim C8: with a non-empty prepend prompt, the first assembled
message is a system-role message holding that prompt, whatever the
history and append prompt. -/
theorem construct_messages_system_first :
    ∀ (prepend_prompt : String) (history : List Msg) (append_prompt : String),
      prepend_prompt ≠ "" →
      (construct_messages prepend_prompt history append_prompt).head? =
        some { role := "system", content := prepend_prompt } := by
  intro p history a hp
  by_cases hh : history.length > 0 <;> by_cases ha : a ≠ "" <;>
    simp [construct_messages, hp, hh, ha]

/-- Claim C8, witness at the spec's end-to-end scenario prompts. -/
theorem construct_messages_system_first_witness :
    ("You are a bot" : String) ≠ "" ∧
    (construct_messages "You are a bot" [] "hi").head? =
      some { role := "system", content := "You are a bot" } :=
  ⟨by decide, construct_messages_system_first "You are a bot" [] "hi" (by decide)⟩

/-- Claim C10: message assembly is a pure function of its inputs whose
output is exactly the optional leading system message, then the history
elements themselves in their original order, then the optional trailing
user message; its length is the history's length plus one per non-empty
prompt (the source only reads `history`, never writes it). -/
theorem construct_messages_frame :
    ∀ (prepend_prompt : String) (history : List Msg) (append_prompt : String),
      construct_messages prepend_prompt history append_prompt =
        (if prepend_prompt = "" then []
         else [{ role := "system", content := prepend_prompt }]) ++ history ++
        (if append_prompt = "" then []
         else [{ role := "user", content := append_prompt }]) ∧
      (construct_messages prepend_prompt history append_prompt).length =
        history.length + (if prepend_prompt = "" then 0 else 1) +
          (if append_prompt = "" then 0 else 1) := by
  intro p history a
  by_cases hp : p = "" <;> by_cases ha : a = "" <;> cases history <;>
    simp [construct_messages, hp, ha]

/-- Claim C9: if the dispatches before attempt `j` fail with retryable
errors and attempt `j` raises the interruption signal, both call modes
stop at attempt `j` and propagate the interruption — no further
attempts are made, unlike retryable errors which are retried up to the
bound. -/
theorem interrupt_propagates :
    ∀ (lit : String → Option PyVal) (rep : String → Option String)
      (functions : List FunctionSchema)
      (remote : Nat → Except PyError Response) (e : Nat → PyError) (j : Nat),
      1 ≤ j → j ≤ 20 →
      (∀ i, 1 ≤ i → i < j → remote i = .error (e i) ∧ isExceptionErr (e i) = true) →
      remote j = .error .keyboardInterrupt →
      generate_response lit functions remote = (.error .keyboardInterrupt, j) ∧
      agenerate_response lit rep functions remote = (.error .keyboardInterrupt, j) := by
  intro lit rep functions remote e j h1 h2 hpre hj
  constructor
  · have := retryGo_interrupt
      (fun i => (remote i).bind (generate_response_attempt lit functions)) e
      19 1 j (by omega) (by omega)
      (fun i hi hij =>
        ⟨by show (remote i).bind _ = _; rw [(hpre i hi hij).1]; rfl,
         (hpre i hi hij).2⟩)
      (by show (remote j).bind _ = _; rw [hj]; rfl)
    simpa [generate_response, retried, stop_attempts] using this
  · have := retryGo_interrupt
      (fun i => (remote i).bind
        (fun r => (agenerate_response_attempt lit rep functions r).fst)) e
      19 1 j (by omega) (by omega)
      (fun i hi hij =>
        ⟨by show (remote i).bind _ = _; rw [(hpre i hi hij).1]; rfl,
         (hpre i hi hij).2⟩)
      (by show (remote j).bind _ = _; rw [hj]; rfl)
    simpa [agenerate_response, retried, stop_attempts] using this

/-- Claim C9, witness: an interruption on the very first attempt stops
both call modes at attempt 1. -/
theorem interrupt_propagates_witness :
    generate_response (fun _ => none) [] (fun _ => .error .keyboardInterrupt) =
      (.error .keyboardInterrupt, 1) ∧
    agenerate_response (fun _ => none) (fun _ => none) []
        (fun _ => .error .keyboardInterrupt) =
      (.error .keyboardInterrupt, 1) :=
  interrupt_propagates (fun _ => none) (fun _ => none) []
    (fun _ => .error .keyboardInterrupt) (fun _ => .openAIError "") 1
    (by decide) (by decide) (fun i hi hij => by omega) rfl

end AgentVerse
